import Mathlib

/-!
Verification development for the devpp document-intake-and-payment
application.  Server route handlers, the client pricing/payment contexts
and the upload coordinator are shallowly embedded as pure Lean functions;
machine-level effects (HTTP transport, the Razorpay SDK, the filesystem)
appear as explicit parameters or as algebraic event/response types.
Amounts are modelled as rationals, JavaScript request-body values as a
small dynamic-value type.
-/

namespace Devpp

/-- A JavaScript runtime value as it can appear in a parsed JSON request
body: a (finite) number, NaN, a string, a boolean, null, or undefined
(field absent). -/
inductive JSVal where
  | vNum (q : ℚ)
  | vNaN
  | vStr (s : String)
  | vBool (b : Bool)
  | vNull
  | vUndef
  | vObj (errorField messageField : Option String)
deriving DecidableEq, Repr

/-- JavaScript truthiness of a value: 0, NaN, the empty string, false,
null and undefined are falsy, everything else (objects included) is
truthy. -/
def JSVal.truthy : JSVal → Bool
  | .vNum q => q ≠ 0
  | .vNaN => false
  | .vStr s => s ≠ ""
  | .vBool b => b
  | .vNull => false
  | .vUndef => false
  | .vObj _ _ => true

/-- `typeof v === 'number'` (NaN included, as in JavaScript). -/
def JSVal.isNumberType : JSVal → Bool
  | .vNum _ => true
  | .vNaN => true
  | _ => false

/-- `Number.isInteger(v)`: a finite number with denominator 1. -/
def JSVal.isIntegerJS : JSVal → Bool
  | .vNum q => q.den = 1
  | _ => false

/-- `typeof v === 'number' && v > 0 && Number.isInteger(v)` — the amount
validation performed by `createOrder`. -/
def JSVal.isPositiveIntegerJS : JSVal → Bool
  | .vNum q => decide (0 < q) && decide (q.den = 1)
  | _ => false

/-! ## Server payment routes (src/unnamed/part_005) -/

/-- Response of a payment-route handler: HTTP status, the `success`
field, and whether a gateway order object was created and returned
(`createOrder` only spreads the mock order into the body on the success
path). -/
structure RouteResponse where
  status : Nat
  success : Bool
  error : Option String
  orderCreated : Bool
deriving DecidableEq, Repr

/-- `createOrder` request handler (src/unnamed/part_005 lines 22–85):
rejects a falsy amount/currency/receipt, a non-positive-integer amount,
or a currency other than INR with 400; otherwise builds the mock
Razorpay order and responds with success. -/
def createOrder (amount : JSVal) (currency : String) (receipt : String) : RouteResponse :=
  if ¬ amount.truthy ∨ currency = "" ∨ receipt = "" then
    { status := 400, success := false
      error := some "Missing required fields: amount, currency, receipt"
      orderCreated := false }
  else if ¬ amount.isPositiveIntegerJS then
    { status := 400, success := false
      error := some "Amount should be a positive integer in paise"
      orderCreated := false }
  else if currency ≠ "INR" then
    { status := 400, success := false
      error := some "Only INR currency is supported"
      orderCreated := false }
  else
    { status := 200, success := true, error := none, orderCreated := true }

/-- Default server-held Razorpay secret (src/unnamed/part_005 line 6). -/
def RAZORPAY_KEY_SECRET : String := "your_secret_here"

/-- `verifyPayment` request handler (src/unnamed/part_005 lines 88–141),
parameterised by the hex HMAC-SHA256 digest function
`hmacSha256Hex secret message` (the `crypto` library primitive): rejects
a falsy paymentId/orderId/signature with 400, recomputes the expected
signature over `orderId|paymentId` keyed by the server secret, and
accepts exactly when the supplied signature equals it. -/
def verifyPayment (hmacSha256Hex : String → String → String)
    (paymentId orderId signature : String) : RouteResponse :=
  if paymentId = "" ∨ orderId = "" ∨ signature = "" then
    { status := 400, success := false
      error := some "Missing required fields: paymentId, orderId, signature"
      orderCreated := false }
  else
    let expectedSignature := hmacSha256Hex RAZORPAY_KEY_SECRET (orderId ++ "|" ++ paymentId)
    if expectedSignature = signature then
      { status := 200, success := true, error := none, orderCreated := false }
    else
      { status := 400, success := false
        error := some "Invalid payment signature", orderCreated := false }

/-! ## Signature comparison cost model (src/unnamed/part_005 line 106)

`verifyPayment` compares the two signatures with the strict-equality
operator on strings.  Its canonical evaluation compares characters left
to right and stops at the first mismatch; `sigCompare` is that
comparison and `sigCompareSteps` counts the character comparisons it
performs. -/

/-- Short-circuit character-by-character string comparison: the
evaluation strategy behind the `===` comparison of the two hex
signatures. -/
def sigCompareChars : List Char → List Char → Bool
  | [], [] => true
  | [], _ :: _ => false
  | _ :: _, [] => false
  | a :: as, b :: bs => if a = b then sigCompareChars as bs else false

/-- Number of character comparisons `sigCompareChars` performs before
returning. -/
def sigCompareSteps : List Char → List Char → Nat
  | [], _ => 0
  | _ :: _, [] => 0
  | a :: as, _b :: bs => 1 + (if a = _b then sigCompareSteps as bs else 0)

/-- String-level comparison of expected vs supplied signature. -/
def sigCompare (expected supplied : String) : Bool :=
  sigCompareChars expected.data supplied.data

/-! ## Upload batch handling (src/server/routes/uploads.ts) -/

/-- A file of a multipart upload batch, as multer sees it: declared
content type and size in bytes. -/
structure BatchFile where
  mimetype : String
  size : Nat
deriving DecidableEq, Repr

/-- Content types accepted by `fileFilter` (uploads.ts lines 26–44). -/
def allowedTypes : List String :=
  [ "image/jpeg", "image/jpg", "image/png", "application/pdf",
    "application/msword",
    "application/vnd.openxmlformats-officedocument.wordprocessingml.document",
    "application/vnd.ms-excel",
    "application/vnd.openxmlformats-officedocument.spreadsheetml.sheet" ]

/-- `fileSize` limit configured on multer: 50MB. -/
def maxFileSize : Nat := 50 * 1024 * 1024

/-- `files` limit configured on multer (and `upload.array('files', 30)`):
30 files. -/
def maxFileCount : Nat := 30

/-- Errors multer can raise while streaming the batch. -/
inductive MulterError where
  | limitFileCount
  | limitFileSize
  | unsupportedFileType
deriving DecidableEq, Repr

/-- Multer streaming of the batch: files arrive in order; a file beyond
the count limit raises LIMIT_FILE_COUNT, a disallowed content type makes
`fileFilter` raise, a file over 50MB raises LIMIT_FILE_SIZE.  The first
error aborts the whole batch. -/
def multerProcess : List BatchFile → Nat → Option MulterError
  | [], _ => none
  | f :: fs, idx =>
    if maxFileCount ≤ idx then some .limitFileCount
    else if ¬ allowedTypes.contains f.mimetype then some .unsupportedFileType
    else if maxFileSize < f.size then some .limitFileSize
    else multerProcess fs (idx + 1)

/-- Response of the `uploadFiles` handler: HTTP status, `success`, and
the files recorded in the appended upload record (none when the batch
was rejected — no record is written on any error path). -/
structure UploadResponse where
  status : Nat
  success : Bool
  recorded : Option (List BatchFile)
deriving DecidableEq, Repr

/-- `uploadFiles` handler (uploads.ts lines 57–159): multer errors map
to 400 with no record; an empty batch is 400 `No files provided`; an
accepted batch appends one upload record holding every file and responds
with success. -/
def uploadFiles (files : List BatchFile) : UploadResponse :=
  match multerProcess files 0 with
  | some _ => { status := 400, success := false, recorded := none }
  | none =>
    if files = [] then { status := 400, success := false, recorded := none }
    else { status := 200, success := true, recorded := some files }

/-! ## Upload record queries (src/server/routes/uploads.ts) -/

/-- A persisted upload record (the fields the two query handlers read). -/
structure StoredUpload where
  uploadId : String
  userId : String
deriving DecidableEq, Repr

/-- Response of an upload query: status, `success`, and the records
returned (for the per-user listing). -/
structure QueryResponse where
  status : Nat
  success : Bool
  uploads : List StoredUpload
deriving DecidableEq, Repr

/-- `getUserUploads` handler (uploads.ts lines 219–261).  `store` is the
parsed content of `upload-records.json`, `none` when the file does not
exist.  An empty userId is 400; a missing store answers success with an
empty list; otherwise the user's records are filtered out. -/
def getUserUploads (userId : String) (store : Option (List StoredUpload)) : QueryResponse :=
  if userId = "" then { status := 400, success := false, uploads := [] }
  else
    match store with
    | none => { status := 200, success := true, uploads := [] }
    | some records =>
      { status := 200, success := true
        uploads := records.filter (fun r => r.userId = userId) }

/-- `getUploadStatus` handler (uploads.ts lines 162–216): 400 for an
empty uploadId, 404 when the store file does not exist or holds no
record with that id, 200 with the record otherwise. -/
def getUploadStatus (uploadId : String) (store : Option (List StoredUpload)) : QueryResponse :=
  if uploadId = "" then { status := 400, success := false, uploads := [] }
  else
    match store with
    | none => { status := 404, success := false, uploads := [] }
    | some records =>
      match records.find? (fun r => r.uploadId = uploadId) with
      | none => { status := 404, success := false, uploads := [] }
      | some r => { status := 200, success := true, uploads := [r] }

/-! ## Pricing context (src/unnamed/part_000) -/

/-- An uploaded file as the pricing context sees it.  `documentTypeId`
is the empty string when unset (falsy), `status` is the upload status
string, `tier` is the empty string when unset. -/
structure UploadedFile where
  documentTypeId : String
  status : String
  tier : String
deriving DecidableEq, Repr

/-- An order line item produced by `calculateFromFiles`. -/
structure OrderItem where
  documentTypeId : String
  tier : String
  quantity : Nat
deriving DecidableEq, Repr

/-- One breakdown row of an order calculation. -/
structure BreakdownRow where
  documentType : String
  quantity : Nat
  unitPrice : ℚ
  totalPrice : ℚ
deriving DecidableEq, Repr

/-- The `OrderCalculation` record of the pricing context. -/
structure OrderCalculation where
  subtotal : ℚ
  bulkDiscount : ℚ
  gstAmount : ℚ
  totalAmount : ℚ
  breakdown : List BreakdownRow
deriving DecidableEq, Repr

/-- The all-zero calculation with empty breakdown. -/
def emptyCalculation : OrderCalculation :=
  { subtotal := 0, bulkDiscount := 0, gstAmount := 0, totalAmount := 0, breakdown := [] }

/-- The filter-and-map of `calculateFromFiles` (part_000 lines 86–92):
keep files with a truthy documentTypeId and completed status, one line
item of quantity 1 each, tier defaulting to Standard. -/
def validLineItems (files : List UploadedFile) : List OrderItem :=
  (files.filter (fun f => f.documentTypeId ≠ "" && f.status = "completed")).map
    (fun f =>
      { documentTypeId := f.documentTypeId
        tier := if f.tier ≠ "" then f.tier else "Standard"
        quantity := 1 })

/-- `calculateFromFiles` (part_000 lines 82–141), parameterised by the
shared pricing engine `PricingCalculator.calculateOrderTotal`: an empty
line-item list short-circuits to the all-zero calculation without
invoking the engine; otherwise the engine's result is returned. -/
def calculateFromFiles (calculateOrderTotal : List OrderItem → OrderCalculation)
    (files : List UploadedFile) : OrderCalculation :=
  let items := validLineItems files
  if items = [] then emptyCalculation else calculateOrderTotal items

/-! ## Payment page amount computation (src/unnamed/part_004 lines 437–453) -/

/-- `Math.round`: round to the nearest integer, halves up. -/
def jsRound (x : ℚ) : ℤ := ⌊x + 1/2⌋

/-- The GST rate used on the payment page. -/
def taxRate : ℚ := 18/100

/-- `subtotal` memo: sum of the item prices, overridden by a finite
positive `pricingState.calculation.subtotal`. -/
def paymentSubtotal (itemPrices : List ℚ) (calcOpt : Option OrderCalculation) : ℚ :=
  let computed := itemPrices.sum
  match calcOpt with
  | some c => if 0 < c.subtotal then c.subtotal else computed
  | none => computed

/-- `gstAmount` memo: `Math.round(subtotal * taxRate)`, overridden by a
finite positive `pricingState.calculation.gstAmount`. -/
def paymentGst (subtotal : ℚ) (calcOpt : Option OrderCalculation) : ℚ :=
  let computed : ℚ := (jsRound (subtotal * taxRate) : ℤ)
  match calcOpt with
  | some c => if 0 < c.gstAmount then c.gstAmount else computed
  | none => computed

/-- `totalAmount` memo: `subtotal + gstAmount`, overridden by a finite
positive `pricingState.calculation.totalAmount`. -/
def paymentTotal (subtotal gstAmount : ℚ) (calcOpt : Option OrderCalculation) : ℚ :=
  let computed := subtotal + gstAmount
  match calcOpt with
  | some c => if 0 < c.totalAmount then c.totalAmount else computed
  | none => computed

/-- Modelled from the spec: rounding an amount to 2 decimal places
(round-half-up to the currency's minor unit), the rounding policy the
specification states for tax and total amounts.  Used only to compare
the specified policy with the code's `Math.round`. -/
def specRound2 (x : ℚ) : ℚ := (jsRound (x * 100) : ℤ) / 100

/-! ## Payment context (src/client/contexts/PaymentContext.tsx)

React state is modelled explicitly: `initializePayment` reads its guard
from the render-time `snapshot` of the state (the value closed over by
the `useCallback`), while its `setState(prev => ...)` updates apply to
the `committed` state.  A re-render is what copies the committed state
into the next snapshot. -/

/-- The slice of `PaymentState` that `initializePayment` touches:
`currentPayment` carries the gateway order id once an order exists. -/
structure PaymentCtxState where
  currentPayment : Option String
  isProcessing : Bool
  error : Option String
deriving DecidableEq, Repr

/-- The provider's initial state. -/
def initialPaymentCtxState : PaymentCtxState :=
  { currentPayment := none, isProcessing := false, error := none }

/-- `initializePayment` (PaymentContext.tsx lines 96–167).  The guard
`state.isProcessing || state.currentPayment` is evaluated on the render
snapshot; updates are applied to the committed state.  `orderResponse`
is the create-order API outcome (`some id` when the server answered
success with an order id).  The second component counts the
create-order requests this call issued (0 when the guard or the
validation rejected, 1 when `paymentAPI.createOrder` was called). -/
def initializePayment (snapshot committed : PaymentCtxState)
    (orderItems : List OrderItem) (totalAmount : ℚ)
    (orderResponse : Option String) : PaymentCtxState × Nat :=
  if snapshot.isProcessing || snapshot.currentPayment.isSome then
    (committed, 0)
  else
    let started := { committed with isProcessing := true, error := none }
    if orderItems = [] ∨ totalAmount ≤ 0 then
      ({ started with isProcessing := false, error := some "Invalid order items or amount" }, 0)
    else
      match orderResponse with
      | some id =>
        ({ started with currentPayment := some id, isProcessing := false }, 1)
      | none =>
        ({ started with isProcessing := false, error := some "Invalid order response from server" }, 1)

/-- Two initiation attempts where the first call's state update is
committed and re-rendered before the second call, so the second call's
snapshot is up to date. -/
def initializeTwiceCommitted (orderItems : List OrderItem) (totalAmount : ℚ)
    (resp1 resp2 : Option String) : PaymentCtxState × Nat :=
  let first := initializePayment initialPaymentCtxState initialPaymentCtxState
    orderItems totalAmount resp1
  let second := initializePayment first.1 first.1 orderItems totalAmount resp2
  (second.1, first.2 + second.2)

/-- Two initiation attempts in immediate succession within one render:
both calls close over the initial snapshot, the second starts before any
re-render delivers the first call's update. -/
def initializeTwiceSameRender (orderItems : List OrderItem) (totalAmount : ℚ)
    (resp1 resp2 : Option String) : PaymentCtxState × Nat :=
  let first := initializePayment initialPaymentCtxState initialPaymentCtxState
    orderItems totalAmount resp1
  let second := initializePayment initialPaymentCtxState first.1 orderItems totalAmount resp2
  (second.1, first.2 + second.2)

/-! ## Razorpay checkout popup (src/client/pages/Payment.tsx lines 142–188) -/

/-- A terminal event the Razorpay popup can fire: the success handler,
the modal `ondismiss` callback, or a `payment.failed` event carrying an
optional error description and reason (the empty string models an
absent/falsy field). -/
inductive CheckoutEvent where
  | handlerSuccess (paymentId orderId signedWith : String)
  | dismiss
  | paymentFailed (description reason : String)
deriving DecidableEq, Repr

/-- A settlement of the promise returned by `openRazorpayCheckout`:
resolution with the gateway response, or rejection with an error
message. -/
inductive CheckoutOutcome where
  | resolved (paymentId orderId signedWith : String)
  | rejected (message : String)
deriving DecidableEq, Repr

/-- How each popup event attempts to settle the promise: the handler
resolves with the response; dismissal rejects with the fixed dismissal
message; `payment.failed` rejects with
`description || reason || "Payment failed in Razorpay popup"`. -/
def checkoutEventOutcome : CheckoutEvent → CheckoutOutcome
  | .handlerSuccess p o s => .resolved p o s
  | .dismiss => .rejected "Payment popup dismissed by user"
  | .paymentFailed d r =>
    .rejected (if d ≠ "" then d else if r ≠ "" then r else "Payment failed in Razorpay popup")

/-- Settlement of the promise under a sequence of popup events:
`resolve`/`reject` latch, so each event settles the promise only if no
earlier event already did (ECMAScript promise semantics). -/
def settleCheckout (events : List CheckoutEvent) : Option CheckoutOutcome :=
  events.foldl
    (fun settled e =>
      match settled with
      | some o => some o
      | none => some (checkoutEventOutcome e))
    none

/-! ## Client API wrapper (src/client/utils/apiService.ts lines 35–171) -/

/-- `v.message` — property access on the parsed response body.  Throws a
TypeError on null/undefined, yields the field on an object, and
undefined (here `none`) on any other primitive. -/
def JSVal.getMessage : JSVal → Except String (Option String)
  | .vNull => .error "Cannot read properties of null (reading 'message')"
  | .vUndef => .error "Cannot read properties of undefined (reading 'message')"
  | .vObj _ m => .ok m
  | _ => .ok none

/-- `v.error` — property access on the parsed response body. -/
def JSVal.getErrorProp : JSVal → Except String (Option String)
  | .vNull => .error "Cannot read properties of null (reading 'error')"
  | .vUndef => .error "Cannot read properties of undefined (reading 'error')"
  | .vObj e _ => .ok e
  | _ => .ok none

/-- Outcome of the underlying `fetch` call: rejection with the network
TypeError, an abort fired by the timeout controller, or an HTTP response
(`ok` is `response.ok`, i.e. a 2xx status; `body` is the parsed JSON
body, or a `vStr` for a non-JSON body). -/
inductive FetchOutcome where
  | networkFailure
  | aborted
  | response (ok : Bool) (status : Nat) (body : JSVal)
deriving DecidableEq, Repr

/-- The `ApiResponse` record the wrapper returns. -/
structure ApiResult where
  success : Bool
  data : Option JSVal
  error : Option String
  message : Option String
deriving DecidableEq, Repr

/-- `str1 || str2` on strings with JavaScript truthiness, for optional
string fields. -/
def jsOrElse (v : Option String) (dflt : String) : String :=
  match v with
  | some s => if s ≠ "" then s else dflt
  | none => dflt

/-- `error.message.includes("Failed to fetch")` — substring test used by
the catch block to classify a thrown error as a network failure. -/
def containsFailedToFetch (msg : String) : Bool :=
  2 ≤ (msg.splitOn "Failed to fetch").length

/-- `ApiService.request` (apiService.ts lines 35–171), with the fetch
outcome made explicit.  `errorMessage` is the caller-supplied default
error text.  Every control path — network failure, timeout abort,
non-2xx status, and the TypeError thrown by the response-shaping
property accesses — is absorbed by the surrounding try/catch, so the
model is a total function: the wrapper itself never throws. -/
def apiRequest (outcome : FetchOutcome) (errorMessage : Option String) : ApiResult :=
  match outcome with
  | .networkFailure =>
    { success := false, data := none
      error := some "Network error. Please check your connection.", message := none }
  | .aborted =>
    { success := false, data := none
      error := some "Request timed out. Please try again.", message := none }
  | .response ok status body =>
    if ok then
      match body.getMessage with
      | .ok m =>
        { success := true, data := some body, error := none
          message := some (jsOrElse m "Request successful") }
      | .error thrownMsg =>
        { success := false, data := none
          error := some (errorMessage.getD thrownMsg), message := none }
    else
      match body.getErrorProp, body.getMessage with
      | .ok e, .ok m =>
        let thrownMsg := jsOrElse e (jsOrElse m ("HTTP " ++ toString status))
        if containsFailedToFetch thrownMsg then
          { success := false, data := none
            error := some "Network error. Please check your connection.", message := none }
        else
          { success := false, data := none
            error := some (errorMessage.getD thrownMsg), message := none }
      | .error thrownMsg, _ =>
        { success := false, data := none
          error := some (errorMessage.getD thrownMsg), message := none }
      | _, .error thrownMsg =>
        { success := false, data := none
          error := some (errorMessage.getD thrownMsg), message := none }

/-! ## Theorems -/

/-- C1: a POST /api/payment/verify request with non-empty paymentId,
orderId and signature succeeds exactly when the signature equals the hex
HMAC-SHA256 digest, keyed by the server secret, of `orderId|paymentId`;
any differing signature, and any empty paymentId or orderId, yields 400
with success false and an error message.  The handler is a total
function of its inputs — it never throws. -/
theorem verifyPayment_matches_hmac (hmac : String → String → String)
    (paymentId orderId sig : String) :
    (paymentId ≠ "" ∧ orderId ≠ "" ∧ sig ≠ "" →
      ((verifyPayment hmac paymentId orderId sig).success = true ↔
        sig = hmac RAZORPAY_KEY_SECRET (orderId ++ "|" ++ paymentId))) ∧
    (sig ≠ hmac RAZORPAY_KEY_SECRET (orderId ++ "|" ++ paymentId) →
      (verifyPayment hmac paymentId orderId sig).status = 400 ∧
      (verifyPayment hmac paymentId orderId sig).success = false ∧
      (verifyPayment hmac paymentId orderId sig).error.isSome = true) ∧
    (paymentId = "" ∨ orderId = "" →
      (verifyPayment hmac paymentId orderId sig).status = 400 ∧
      (verifyPayment hmac paymentId orderId sig).success = false) := by
  simp only [verifyPayment]
  split_ifs with hempty hsig
  · refine ⟨fun hne => absurd hempty ?_, fun _ => ⟨rfl, rfl, rfl⟩, fun _ => ⟨rfl, rfl⟩⟩
    push_neg
    exact hne
  · push_neg at hempty
    exact ⟨fun _ => ⟨fun _ => hsig.symm, fun _ => rfl⟩, fun hdiff => absurd hsig.symm hdiff,
      fun hmiss => hmiss.elim (fun h => absurd h hempty.1) (fun h => absurd h hempty.2.1)⟩
  · push_neg at hempty
    exact ⟨fun _ => ⟨fun hfalse => False.elim hfalse, fun hs => absurd hs.symm hsig⟩,
      fun _ => ⟨rfl, rfl, rfl⟩,
      fun hmiss => hmiss.elim (fun h => absurd h hempty.1) (fun h => absurd h hempty.2.1)⟩

/-- Witness for C1: a concrete digest function and identifiers where the
matching signature is accepted and a one-character mutation of it is
rejected with 400. -/
theorem verifyPayment_matches_hmac_witness :
    (verifyPayment (fun _ m => "h" ++ m) "pay_1" "order_1" "horder_1|pay_1").success = true ∧
    (verifyPayment (fun _ m => "h" ++ m) "pay_1" "order_1" "Horder_1|pay_1").status = 400 := by
  constructor
  · exact ((verifyPayment_matches_hmac (fun _ m => "h" ++ m) "pay_1" "order_1"
      "horder_1|pay_1").1 ⟨by decide, by decide, by decide⟩).mpr (by decide)
  · exact ((verifyPayment_matches_hmac (fun _ m => "h" ++ m) "pay_1" "order_1"
      "Horder_1|pay_1").2.1 (by decide)).1

/-- C4: POST /api/payment/create-order returns a created order only for
a truthy receipt, a positive-integer amount and INR currency; any other
amount (non-number, NaN, non-integer, zero or negative) or any other
currency yields 400 with success false, an error message, and no order
created. -/
theorem createOrder_validation (amount : JSVal) (currency receipt : String) :
    ((createOrder amount currency receipt).orderCreated = true →
      amount.isPositiveIntegerJS = true ∧ currency = "INR") ∧
    (amount.isPositiveIntegerJS = false ∨ currency ≠ "INR" →
      (createOrder amount currency receipt).status = 400 ∧
      (createOrder amount currency receipt).success = false ∧
      (createOrder amount currency receipt).error.isSome = true ∧
      (createOrder amount currency receipt).orderCreated = false) := by
  unfold createOrder
  split_ifs with h1 h2 h3 <;>
    refine ⟨fun hcreated => ?_, fun hbad => ?_⟩ <;>
    simp_all

/-- Witness for C4: a concrete positive-integer paise amount in INR is
accepted, and the same amount in USD is rejected with 400. -/
theorem createOrder_validation_witness :
    (createOrder (.vNum 50000) "INR" "receipt_1").orderCreated = true ∧
    (createOrder (.vNum 50000) "USD" "receipt_1").status = 400 :=
  ⟨by decide, ((createOrder_validation (.vNum 50000) "USD" "receipt_1").2
    (Or.inr (by decide))).1⟩

/-- C7: when the files yield no valid line items (no file with a truthy
document type and completed status), `calculateFromFiles` returns the
all-zero calculation with empty breakdown, independently of the pricing
engine — the engine is not consulted, so no error can be raised. -/
theorem calculateFromFiles_empty_items
    (engine : List OrderItem → OrderCalculation) (files : List UploadedFile)
    (h : validLineItems files = []) :
    calculateFromFiles engine files =
      { subtotal := 0, bulkDiscount := 0, gstAmount := 0
        totalAmount := 0, breakdown := [] } := by
  unfold calculateFromFiles
  simp only [h, if_pos rfl]
  rfl

/-- Witness for C7: a file without a document type produces no line
items, and the result is the all-zero calculation even under a pricing
engine that returns garbage. -/
theorem calculateFromFiles_empty_items_witness :
    validLineItems [{ documentTypeId := "", status := "completed", tier := "Express" }] = [] ∧
    calculateFromFiles
      (fun _ => { subtotal := 5, bulkDiscount := 6, gstAmount := 7
                  totalAmount := 8, breakdown := [] })
      [{ documentTypeId := "", status := "completed", tier := "Express" }] =
      { subtotal := 0, bulkDiscount := 0, gstAmount := 0
        totalAmount := 0, breakdown := [] } :=
  ⟨by decide, calculateFromFiles_empty_items _ _ (by decide)⟩

/-- `Math.round` lands within half a unit of its argument. -/
theorem jsRound_close (x : ℚ) : |(jsRound x : ℚ) - x| ≤ 1/2 := by
  rw [abs_le, jsRound]
  constructor
  · have h := Int.lt_floor_add_one (x + 1/2)
    push_cast at h ⊢
    linarith
  · have h := Int.floor_le (x + 1/2)
    push_cast at h ⊢
    linarith

/-- C2 counterexample: with no pricing-context override and a single
line item priced at 103 rupees, the payment page computes a GST of 19
rupees — `Math.round(103 * 0.18)` — whereas 18% of (subtotal − bulk
discount), with the bulk discount 0 here, rounded to 2 decimal places is
18.54.  The claimed 2-decimal rounding does not hold. -/
theorem paymentGst_not_two_decimal :
    paymentSubtotal [(103 : ℚ)] none = 103 ∧
    paymentGst (paymentSubtotal [(103 : ℚ)] none) none = 19 ∧
    specRound2 ((paymentSubtotal [(103 : ℚ)] none - 0) * taxRate) = 1854/100 ∧
    ((19 : ℚ) ≠ 1854/100) := by
  refine ⟨by norm_num [paymentSubtotal], ?_, ?_, by norm_num⟩
  · norm_num [paymentSubtotal, paymentGst, jsRound, taxRate]
  · norm_num [paymentSubtotal, specRound2, jsRound, taxRate]

/-- C2 amended: in the payment page's computed path (no positive
pricing-context override), gstAmount is subtotal × 18% rounded with
`Math.round` to the nearest whole rupee — an integer amount within half
a rupee of the exact tax, with no bulk-discount term — and totalAmount
equals subtotal + gstAmount exactly; a positive pricing-context override
is passed through unchanged. -/
theorem paymentAmounts_whole_rupee_tax (itemPrices : List ℚ) (c : OrderCalculation) :
    paymentGst (paymentSubtotal itemPrices none) none =
      ((jsRound (paymentSubtotal itemPrices none * taxRate) : ℤ) : ℚ) ∧
    (paymentGst (paymentSubtotal itemPrices none) none).den = 1 ∧
    |paymentGst (paymentSubtotal itemPrices none) none -
      paymentSubtotal itemPrices none * taxRate| ≤ 1/2 ∧
    paymentTotal (paymentSubtotal itemPrices none)
        (paymentGst (paymentSubtotal itemPrices none) none) none =
      paymentSubtotal itemPrices none + paymentGst (paymentSubtotal itemPrices none) none ∧
    (0 < c.gstAmount → paymentGst (paymentSubtotal itemPrices none) (some c) = c.gstAmount) := by
  refine ⟨rfl, Rat.den_intCast _, jsRound_close _, rfl, fun hpos => ?_⟩
  simp only [paymentGst, if_pos hpos]

/-- C3 evidence (state-update race): two `initializePayment` calls in
immediate succession within one render share the stale initial snapshot
(`isProcessing` false, `currentPayment` null), so both pass the guard
and both issue a create-order request — two gateway orders, and the
second overwrites the first in `currentPayment`.  When the first call's
update is committed and re-rendered before the second call, the guard
rejects the second call and exactly one order is created, which is the
behaviour the guard's own comment announces. -/
theorem initializePayment_stale_snapshot_two_orders :
    (initializeTwiceSameRender [{ documentTypeId := "doc-1", tier := "Standard", quantity := 1 }]
        (100 : ℚ) (some "order_A") (some "order_B")).2 = 2 ∧
    (initializeTwiceSameRender [{ documentTypeId := "doc-1", tier := "Standard", quantity := 1 }]
        (100 : ℚ) (some "order_A") (some "order_B")).1.currentPayment = some "order_B" ∧
    (initializeTwiceCommitted [{ documentTypeId := "doc-1", tier := "Standard", quantity := 1 }]
        (100 : ℚ) (some "order_A") (some "order_B")).2 = 1 ∧
    (initializeTwiceCommitted [{ documentTypeId := "doc-1", tier := "Standard", quantity := 1 }]
        (100 : ℚ) (some "order_A") (some "order_B")).1.currentPayment = some "order_A" := by
  refine ⟨?_, ?_, ?_, ?_⟩ <;>
    norm_num [initializeTwiceSameRender, initializeTwiceCommitted, initializePayment,
      initialPaymentCtxState]

/-- Characterisation of a clean multer pass: no error is raised exactly
when every file (arriving at positions `idx`, `idx+1`, …) stays under
the count limit, has an allowed content type, and is at most 50MB. -/
theorem multerProcess_none_iff (fs : List BatchFile) (idx : ℕ) :
    multerProcess fs idx = none ↔
      ((fs = [] ∨ idx + fs.length ≤ maxFileCount) ∧
        ∀ f ∈ fs, allowedTypes.contains f.mimetype = true ∧ f.size ≤ maxFileSize) := by
  induction fs generalizing idx with
  | nil => simp [multerProcess]
  | cons f fs ih =>
    simp only [multerProcess]
    split_ifs with hcount htype hsize
    · constructor
      · exact fun h => h.elim
      · rintro ⟨hlen | hlen, _⟩
        · exact absurd hlen (by simp)
        · simp only [List.length_cons] at hlen
          omega
    · constructor
      · exact fun h => h.elim
      · rintro ⟨_, hall⟩
        have hle := (hall f (by simp)).2
        omega
    · rw [ih]
      constructor
      · rintro ⟨hlen, hall⟩
        refine ⟨?_, ?_⟩
        · rcases hlen with hnil | hle
          · subst hnil
            right
            simp only [List.length_cons, List.length_nil]
            omega
          · right
            simp only [List.length_cons]
            omega
        · intro g hg
          rcases List.mem_cons.mp hg with hgf | hgfs
          · subst hgf
            exact ⟨htype, by omega⟩
          · exact hall g hgfs
      · rintro ⟨hlen, hall⟩
        refine ⟨?_, fun g hg => hall g (List.mem_cons_of_mem f hg)⟩
        rcases hlen with hnil | hle
        · exact absurd hnil (by simp)
        · right
          simp only [List.length_cons] at hle
          omega
    · constructor
      · exact fun h => h.elim
      · rintro ⟨_, hall⟩
        exact htype (hall f (by simp)).1

/-- C5 counterexample: a batch holding a single 512-byte PDF is accepted
and recorded, yet 512 bytes is below the claimed 1KB lower bound — the
route enforces no minimum file size. -/
theorem uploadFiles_accepts_file_below_1KB :
    (uploadFiles [{ mimetype := "application/pdf", size := 512 }]).success = true ∧
    (uploadFiles [{ mimetype := "application/pdf", size := 512 }]).recorded =
      some [{ mimetype := "application/pdf", size := 512 }] ∧
    512 < 1024 := by
  refine ⟨by decide, by decide, by decide⟩

/-- C5 amended: a batch is accepted exactly when it is non-empty, has at
most 30 files, and every file is at most 50MB with an allowed content
type (images, PDF, Word, Excel) — there is no lower size bound; any
violation rejects the whole batch with 400 and no upload record is
written (no partial submission). -/
theorem uploadFiles_batch_validation (files : List BatchFile) :
    ((uploadFiles files).success = true ↔
      files ≠ [] ∧ files.length ≤ maxFileCount ∧
        ∀ f ∈ files, allowedTypes.contains f.mimetype = true ∧ f.size ≤ maxFileSize) ∧
    ((uploadFiles files).success = true → (uploadFiles files).recorded = some files) ∧
    ((uploadFiles files).success = false →
      (uploadFiles files).status = 400 ∧ (uploadFiles files).recorded = none) := by
  unfold uploadFiles
  rcases hmp : multerProcess files 0 with _ | e
  · simp only [hmp]
    rw [multerProcess_none_iff] at hmp
    split_ifs with hnil
    · subst hnil
      refine ⟨⟨fun h => by simp_all, fun h => absurd rfl h.1⟩,
        fun h => by simp_all, fun _ => by simp⟩
    · refine ⟨⟨fun _ => ⟨hnil, ?_, hmp.2⟩, fun _ => rfl⟩, fun _ => rfl,
        fun h => by simp_all⟩
      rcases hmp.1 with h | h
      · exact absurd h hnil
      · omega
  · simp only [hmp]
    refine ⟨⟨fun h => by simp_all, fun h => ?_⟩, fun h => by simp_all, fun _ => by simp⟩
    have hnone : multerProcess files 0 = none := by
      rw [multerProcess_none_iff]
      exact ⟨Or.inr (by omega), h.2.2⟩
    rw [hnone] at hmp
    exact Option.noConfusion hmp

/-- Witness for C5 (amended): a 31-file batch of valid PDFs is rejected
with 400 and nothing recorded, while the same file accepted once
succeeds. -/
theorem uploadFiles_batch_validation_witness :
    (uploadFiles (List.replicate 31 { mimetype := "application/pdf", size := 2048 })).status = 400 ∧
    (uploadFiles (List.replicate 31 { mimetype := "application/pdf", size := 2048 })).recorded = none ∧
    (uploadFiles [{ mimetype := "application/pdf", size := 2048 }]).success = true := by
  refine ⟨?_, ?_, ?_⟩
  · exact ((uploadFiles_batch_validation _).2.2 (by decide)).1
  · exact ((uploadFiles_batch_validation _).2.2 (by decide)).2
  · exact (uploadFiles_batch_validation _).1.mpr ⟨by decide, by decide, by decide⟩

/-- A settled promise stays settled: folding further events over an
already-settled accumulator changes nothing. -/
theorem settleCheckout_latched (es : List CheckoutEvent) (o : CheckoutOutcome) :
    es.foldl
      (fun settled e =>
        match settled with
        | some o => some o
        | none => some (checkoutEventOutcome e))
      (some o) = some o := by
  induction es with
  | nil => rfl
  | cons e es ih => exact ih

/-- C6: the checkout popup promise settles exactly once — with the
outcome of the first terminal event, all later events being ignored —
and never settles without an event; user dismissal and a gateway
failure event reject with distinct reasons (the fixed dismissal message
vs the failure description/reason or its default). -/
theorem openCheckout_settles_once_first_wins :
    (∀ (e : CheckoutEvent) (es : List CheckoutEvent),
      settleCheckout (e :: es) = some (checkoutEventOutcome e)) ∧
    (∀ events : List CheckoutEvent, settleCheckout events = none ↔ events = []) ∧
    checkoutEventOutcome .dismiss = .rejected "Payment popup dismissed by user" ∧
    checkoutEventOutcome (.paymentFailed "" "") =
      .rejected "Payment failed in Razorpay popup" ∧
    checkoutEventOutcome .dismiss ≠ checkoutEventOutcome (.paymentFailed "" "") := by
  refine ⟨fun e es => settleCheckout_latched es _, fun events => ?_, rfl, rfl, by decide⟩
  cases events with
  | nil => simp [settleCheckout]
  | cons e es =>
    rw [show settleCheckout (e :: es) = some (checkoutEventOutcome e) from
      settleCheckout_latched es _]
    simp

/-- The character-by-character comparison agrees with list equality. -/
theorem sigCompareChars_eq_iff (as bs : List Char) :
    sigCompareChars as bs = true ↔ as = bs := by
  induction as generalizing bs with
  | nil => cases bs <;> simp [sigCompareChars]
  | cons a as ih =>
    cases bs with
    | nil => simp [sigCompareChars]
    | cons b bs =>
      by_cases hab : a = b
      · subst hab
        simp [sigCompareChars, ih]
      · simp [sigCompareChars, hab]

/-- C8 counterexample: two equal-length forged signatures against the
same expected value are both rejected, but the comparison performs 1
character comparison when the first character differs and 4 when only
the last differs — the comparison cost depends on the position of the
first differing character, so the comparison is not constant-time. -/
theorem sigCompare_cost_depends_on_position :
    sigCompare "aaaa" "baaa" = false ∧
    sigCompare "aaaa" "aaab" = false ∧
    sigCompareSteps "aaaa".data "baaa".data = 1 ∧
    sigCompareSteps "aaaa".data "aaab".data = 4 ∧
    sigCompareSteps "aaaa".data "baaa".data ≠ sigCompareSteps "aaaa".data "aaab".data := by
  refine ⟨by decide, by decide, by decide, by decide, by decide⟩

/-- C8 amended: the verifier compares the signatures with plain string
equality — true exactly on equal strings, with no constant-time
primitive — whose short-circuit evaluation performs one more character
comparison than the position of the first differing character, so its
cost varies with that position. -/
theorem sigCompare_shortCircuit_cost :
    (∀ (e s : String), sigCompare e s = true ↔ e = s) ∧
    (∀ (pre suf1 suf2 : List Char) (a b : Char), a ≠ b →
      sigCompareSteps (pre ++ a :: suf1) (pre ++ b :: suf2) = pre.length + 1) := by
  constructor
  · intro e s
    rw [sigCompare, sigCompareChars_eq_iff]
    constructor
    · intro h
      exact String.ext h
    · intro h
      rw [h]
  · intro pre suf1 suf2 a b hab
    induction pre with
    | nil => simp [sigCompareSteps, hab]
    | cons c pre ih =>
      simp [sigCompareSteps, ih, List.length_cons]
      omega

/-- Witness for C8 (amended): concrete strings differing first at
position 2 take exactly 3 character comparisons. -/
theorem sigCompare_shortCircuit_cost_witness :
    sigCompareSteps ['x', 'y', 'a'] ['x', 'y', 'b'] = 3 :=
  sigCompare_shortCircuit_cost.2 ['x', 'y'] [] [] 'a' 'b' (by decide)

/-- C9 counterexample: a 2xx response whose parsed JSON body is `null`
does not produce `{success:true, data:null}` — the wrapper's own
`responseData.message` access throws a TypeError, the catch swallows it,
and the caller receives `{success:false, error}`. -/
theorem apiRequest_ok_null_body_not_success :
    apiRequest (.response true 200 .vNull) none =
      { success := false, data := none
        error := some "Cannot read properties of null (reading 'message')"
        message := none } := rfl

/-- C9 amended: the wrapper is total (every path, including the
internal TypeError, is absorbed by the catch); it answers success
exactly on a 2xx response whose parsed body is neither null nor
undefined, in which case `data` is the parsed body; every failure
answer carries an error message. -/
theorem apiRequest_error_contract (outcome : FetchOutcome) (em : Option String) :
    ((apiRequest outcome em).success = true ↔
      ∃ status body, outcome = .response true status body ∧
        body ≠ .vNull ∧ body ≠ .vUndef) ∧
    (∀ (status : Nat) (body : JSVal), outcome = .response true status body →
      body ≠ .vNull → body ≠ .vUndef →
      (apiRequest outcome em).data = some body) ∧
    ((apiRequest outcome em).success = false →
      (apiRequest outcome em).error.isSome = true) := by
  rcases outcome with _ | _ | ⟨ok, status, body⟩
  · refine ⟨⟨fun h => by simp [apiRequest] at h, fun h => ?_⟩,
      fun st b h => FetchOutcome.noConfusion h, fun _ => rfl⟩
    obtain ⟨st, b, h, -, -⟩ := h
    exact FetchOutcome.noConfusion h
  · refine ⟨⟨fun h => by simp [apiRequest] at h, fun h => ?_⟩,
      fun st b h => FetchOutcome.noConfusion h, fun _ => rfl⟩
    obtain ⟨st, b, h, -, -⟩ := h
    exact FetchOutcome.noConfusion h
  · cases ok
    · refine ⟨⟨fun h => ?_, fun h => ?_⟩, fun st b h => ?_, fun _ => ?_⟩
      · exact absurd h (by cases body <;> simp [apiRequest, JSVal.getErrorProp,
          JSVal.getMessage] <;> split_ifs <;> simp)
      · obtain ⟨st, b, h, -, -⟩ := h
        exact absurd h (by simp)
      · exact absurd h (by simp)
      · cases body <;> simp [apiRequest, JSVal.getErrorProp, JSVal.getMessage] <;>
          split_ifs <;> simp
    · cases body
      case vNull =>
        refine ⟨⟨fun h => by simp [apiRequest, JSVal.getMessage] at h, fun h => ?_⟩,
          fun st b h hnull _ => ?_, fun _ => rfl⟩
        · obtain ⟨st, b, h, hnull, -⟩ := h
          cases h
          exact absurd rfl hnull
        · cases h
          exact absurd rfl hnull
      case vUndef =>
        refine ⟨⟨fun h => by simp [apiRequest, JSVal.getMessage] at h, fun h => ?_⟩,
          fun st b h _ hundef => ?_, fun _ => rfl⟩
        · obtain ⟨st, b, h, -, hundef⟩ := h
          cases h
          exact absurd rfl hundef
        · cases h
          exact absurd rfl hundef
      all_goals
        refine ⟨⟨fun _ => ⟨status, _, rfl, by simp, by simp⟩, fun _ => rfl⟩,
          fun st b h _ _ => ?_, fun h => by simp [apiRequest, JSVal.getMessage] at h⟩
      all_goals
        cases h
      all_goals rfl

/-- Witness for C9 (amended): a 2xx JSON object body is returned as
success with the body as data, and a network failure yields a failure
with an error message. -/
theorem apiRequest_error_contract_witness :
    (apiRequest (.response true 200 (.vObj none none)) none).success = true ∧
    (apiRequest (.response true 200 (.vObj none none)) none).data =
      some (.vObj none none) ∧
    (apiRequest .networkFailure none).error.isSome = true := by
  refine ⟨(apiRequest_error_contract (.response true 200 (.vObj none none)) none).1.mpr
      ⟨200, .vObj none none, rfl, by simp, by simp⟩,
    (apiRequest_error_contract (.response true 200 (.vObj none none)) none).2.1
      200 (.vObj none none) rfl (by simp) (by simp),
    (apiRequest_error_contract .networkFailure none).2.2 rfl⟩

/-- C10: for a non-empty userId, GET /api/uploads/user/:userId always
answers 200 success — with an empty list when the record store file does
not exist or holds no record of that user — while
GET /api/uploads/status/:uploadId answers 404 with success false when
the store file does not exist or no record carries that (non-empty)
uploadId. -/
theorem uploadQueries_defaults (userId uploadId : String)
    (store : Option (List StoredUpload)) :
    (userId ≠ "" →
      (getUserUploads userId store).status = 200 ∧
      (getUserUploads userId store).success = true) ∧
    (userId ≠ "" → (store = none ∨ ∀ r ∈ store.getD [], r.userId ≠ userId) →
      (getUserUploads userId store).uploads = []) ∧
    (uploadId ≠ "" → (store = none ∨ ∀ r ∈ store.getD [], r.uploadId ≠ uploadId) →
      (getUploadStatus uploadId store).status = 404 ∧
      (getUploadStatus uploadId store).success = false) := by
  refine ⟨fun hu => ?_, fun hu hno => ?_, fun hid hno => ?_⟩
  · unfold getUserUploads
    rw [if_neg hu]
    cases store <;> exact ⟨rfl, rfl⟩
  · unfold getUserUploads
    rw [if_neg hu]
    rcases store with _ | records
    · rfl
    · rcases hno with h | h
      · exact Option.noConfusion h
      · simp only [List.filter_eq_nil_iff]
        intro r hr
        simpa using h r hr
  · unfold getUploadStatus
    rw [if_neg hid]
    rcases store with _ | records
    · exact ⟨rfl, rfl⟩
    · rcases hno with h | h
      · exact Option.noConfusion h
      · have hfind : records.find? (fun r => r.uploadId = uploadId) = none := by
          rw [List.find?_eq_none]
          intro r hr
          simpa using h r hr
        simp [hfind]

/-- Witness for C10: an existing store without the queried user still
answers 200 with an empty list, and a status query against a missing
store answers 404. -/
theorem uploadQueries_defaults_witness :
    (getUserUploads "u1" (some [{ uploadId := "up1", userId := "other" }])).status = 200 ∧
    (getUserUploads "u1" (some [{ uploadId := "up1", userId := "other" }])).uploads = [] ∧
    (getUploadStatus "up9" none).status = 404 := by
  refine ⟨((uploadQueries_defaults "u1" "up9"
      (some [{ uploadId := "up1", userId := "other" }])).1 (by decide)).1,
    (uploadQueries_defaults "u1" "up9"
      (some [{ uploadId := "up1", userId := "other" }])).2.1 (by decide)
      (Or.inr (by decide)),
    ((uploadQueries_defaults "u1" "up9" none).2.2 (by decide) (Or.inl rfl)).1⟩

/-- Witness for C2 (amended): at a concrete subtotal of 103 the computed
path yields the whole-rupee tax, and a positive pricing-context override
of 50 is passed through unchanged. -/
theorem paymentAmounts_whole_rupee_tax_witness :
    paymentGst (paymentSubtotal [(103 : ℚ)] none)
      (some { subtotal := 0, bulkDiscount := 0, gstAmount := 50
              totalAmount := 0, breakdown := [] }) = 50 :=
  (paymentAmounts_whole_rupee_tax [(103 : ℚ)]
    { subtotal := 0, bulkDiscount := 0, gstAmount := 50
      totalAmount := 0, breakdown := [] }).2.2.2.2 (by norm_num)

/-- Witness for C6: with a failure event firing first and a dismissal
right after, the promise settles with the failure outcome and the
dismissal is ignored. -/
theorem openCheckout_settles_once_first_wins_witness :
    settleCheckout [.paymentFailed "card declined" "", .dismiss] =
      some (.rejected "card declined") :=
  openCheckout_settles_once_first_wins.1 (.paymentFailed "card declined" "") [.dismiss]

end Devpp
